import Mathlib

/-!
Verification of the lease-tracker dashboard page and its generic data-fetch
hook.  The development shallowly embeds the two source files:

* `src/pages/LeaseTrackerPage.tsx` — the page controller: card reordering
  (`handleCardReorder`), clipboard copying (`copyToClipboard`) and the share
  flow (`handleShareProject`).
* `src/hooks/useProjectData.ts` — the data-fetch hook (`fetchData`), modelled
  as a pure transition on the hook's `{data, loading, error}` state that also
  reports which backend call (direct table query or RPC) was issued.

Side effects (clipboard writes, alerts, database updates, state setters) are
modelled as explicit event traces; the backend is a function from the issued
call to a result, supplied as a parameter.
-/

namespace BoltHackathon

/-! ## Card model (LeaseTrackerPage.tsx) -/

/-- A dashboard card descriptor: `{id, type, title, order_key}` as in
`ProjectCard` from the source. -/
structure ProjectCard where
  id : String
  type : String
  title : String
  order_key : String
deriving DecidableEq, Repr

/-- The fixed five-card default order `DEFAULT_CARD_ORDER` from the source. -/
def DEFAULT_CARD_ORDER : List ProjectCard :=
  [ { id := "updates", type := "updates", title := "Recent Updates", order_key := "a0" },
    { id := "availability", type := "availability", title := "Client Tour Availability", order_key := "a1" },
    { id := "properties", type := "properties", title := "Properties of Interest", order_key := "a2" },
    { id := "roadmap", type := "roadmap", title := "Project Roadmap", order_key := "a3" },
    { id := "documents", type := "documents", title := "Project Documents", order_key := "a4" } ]

/-- JS `arr.splice(i, 1)` removal: drop the element at index `i` (identity when
`i` is out of range, as in JS where nothing is removed). -/
def removeAt : List α → Nat → List α
  | [], _ => []
  | _ :: l, 0 => l
  | a :: l, n + 1 => a :: removeAt l n

/-- JS `arr.splice(i, 0, x)` insertion: insert `x` before index `i`, appending
at the end when `i` is beyond the end of the list (JS splice semantics). -/
def insertAt : List α → Nat → α → List α
  | l, 0, x => x :: l
  | [], _ + 1, x => [x]
  | a :: l, n + 1, x => a :: insertAt l n x

/-- The key-regeneration step of `handleCardReorder`: map every card at display
position `index` to a copy carrying `order_key = "a" ++ index`. -/
def regenerateKeys (cards : List ProjectCard) : List ProjectCard :=
  cards.enum.map (fun p => { p.2 with order_key := "a" ++ toString p.1 })

/-- `handleCardReorder(oldIndex, newIndex)` from LeaseTrackerPage.tsx: splice
the card out of `oldIndex`, splice it back in at `newIndex`, then regenerate
all order keys sequentially.  The resulting list is the value passed to
`setCardOrder`, i.e. the new local display state.  (For an out-of-range
`oldIndex` the JS code would splice `undefined` into the array; that case is
not representable and is modelled as leaving the list's elements in place.) -/
def handleCardReorder (cards : List ProjectCard) (oldIndex newIndex : Nat) : List ProjectCard :=
  match cards.get? oldIndex with
  | none => regenerateKeys cards
  | some removed => regenerateKeys (insertAt (removeAt cards oldIndex) newIndex removed)

/-- The non-key payload of a card, used to compare card identity while ignoring
the regenerated order keys. -/
def cardData (c : ProjectCard) : String × String × String := (c.id, c.type, c.title)

/-! ## Share flow model (LeaseTrackerPage.tsx) -/

/-- The slice of the `projects` row that the share flow reads and writes. -/
structure Project where
  id : String
  public_share_id : Option String
deriving DecidableEq, Repr

/-- Environment of the share flow: `window.location.origin`, the value
`crypto.randomUUID()` would return, whether `navigator.clipboard` exists,
whether `navigator.clipboard.writeText` resolves, the outcome of
`document.execCommand("copy")` (`none` models a throw), and whether the
`projects` update returns without error (`false` also covers a thrown
persistence error, which the source swallows identically). -/
structure ShareEnv where
  origin : String
  randomUUID : String
  clipboardAvailable : Bool
  primaryCopyOk : Bool
  execCommandResult : Option Bool
  persistOk : Bool
deriving DecidableEq, Repr

/-- Steps taken inside `copyToClipboard`. -/
inductive CopyStep where
  | primaryAttempt
  | fallbackAttempt
deriving DecidableEq, Repr

/-- `copyToClipboard` from LeaseTrackerPage.tsx, with its attempt trace: if
`navigator.clipboard` exists try `writeText` (success returns true, failure
falls through); then the `execCommand("copy")` fallback, whose thrown error is
caught and turned into `false`. -/
def copyToClipboardTrace (env : ShareEnv) : List CopyStep × Bool :=
  if env.clipboardAvailable then
    if env.primaryCopyOk then ([.primaryAttempt], true)
    else
      match env.execCommandResult with
      | some b => ([.primaryAttempt, .fallbackAttempt], b)
      | none => ([.primaryAttempt, .fallbackAttempt], false)
  else
    match env.execCommandResult with
    | some b => ([.fallbackAttempt], b)
    | none => ([.fallbackAttempt], false)

/-- The boolean result of `copyToClipboard`. -/
def copyToClipboard (env : ShareEnv) : Bool := (copyToClipboardTrace env).2

/-- Observable effects of `handleShareProject`, in program order. -/
inductive ShareEvent where
  /-- Text successfully placed on the clipboard. -/
  | clipboardWrite (text : String)
  /-- The blocking `alert` shown when copying fails. -/
  | alertCopyFailed
  /-- The `projects` table update persisting the share id was issued. -/
  | persistShareId (projectId shareId : String)
  /-- `setProject` updated the local project with the new share id. -/
  | setProjectShareId (shareId : String)
  /-- `setCopySuccess(true)` fired. -/
  | setCopySuccessTrue
deriving DecidableEq, Repr

/-- Whether an event is the database write persisting a share id. -/
def isPersistEvent : ShareEvent → Bool
  | .persistShareId _ _ => true
  | _ => false

/-- `handleShareProject` from LeaseTrackerPage.tsx, as the event trace it
produces together with the final local project state.  The `user` flag models
the `if (!project || !user) return` guard.  Existing share id: build
`origin ++ "/share/" ++ shareId`, copy, set the success flag or alert.  Fresh
share: generate `crypto.randomUUID()`, copy the derived URL first, abort with
an alert if copying fails, otherwise issue the persistence update; only an
error-free update also runs `setProject`, and a failed or throwing update is
swallowed without any user-visible effect. -/
def handleShareProject (env : ShareEnv) (project : Project) (user : Bool) :
    List ShareEvent × Project :=
  if !user then ([], project)
  else
    match project.public_share_id with
    | some shareId =>
        let publicUrl := env.origin ++ "/share/" ++ shareId
        if copyToClipboard env then
          ([.clipboardWrite publicUrl, .setCopySuccessTrue], project)
        else
          ([.alertCopyFailed], project)
    | none =>
        let shareId := env.randomUUID
        let publicUrl := env.origin ++ "/share/" ++ shareId
        if !copyToClipboard env then
          ([.alertCopyFailed], project)
        else
          let pre : List ShareEvent :=
            [.clipboardWrite publicUrl, .setCopySuccessTrue,
             .persistShareId project.id shareId]
          if env.persistOk then
            (pre ++ [.setProjectShareId shareId],
             { project with public_share_id := some shareId })
          else
            (pre, project)

/-! ## Data-fetch hook model (useProjectData.ts) -/

/-- The data-type tag of `useProjectData`.  The TypeScript union has exactly
six members; `unknown` models a runtime tag outside the union, which the
source's `default: throw` branches handle. -/
inductive DataType where
  | updates
  | properties
  | roadmap
  | documents
  | requirements
  | client_tour_availability
  | unknown (tag : String)
deriving DecidableEq, Repr

/-- String interpolation of a data-type tag, as in
`Unsupported data type: ${dataType}`. -/
def DataType.tag : DataType → String
  | .updates => "updates"
  | .properties => "properties"
  | .roadmap => "roadmap"
  | .documents => "documents"
  | .requirements => "requirements"
  | .client_tour_availability => "client_tour_availability"
  | .unknown t => t

/-- A backend call the hook can issue: a named RPC with a share id, or a
direct table query (`.from(tbl).select("*").eq(filterColumn, filterValue)
.order(orderColumn, {ascending})`; the `select("*")` is the same on every
query and is left implicit). -/
inductive BackendCall where
  | rpc (fn : String) (share_id : String)
  | table (tbl : String) (filterColumn filterValue orderColumn : String) (ascending : Bool)
deriving DecidableEq, Repr

/-- Whether a backend call is an RPC (public-mode) call. -/
def BackendCall.isRpc : BackendCall → Bool
  | .rpc _ _ => true
  | .table _ _ _ _ _ => false

/-- A fetched record.  Only the order key matters to the hook's own logic;
`payload` stands for all other columns. -/
structure Row where
  order_key : String
  payload : String
deriving DecidableEq, Repr

/-- Result of a backend call: rows, or an error whose message the hook's
`catch` reduces the failure to. -/
inductive QueryResult where
  | ok (rows : List Row)
  | err (msg : String)
deriving DecidableEq, Repr

/-- JS truthiness of an optional string parameter (`Boolean(shareId)`,
`Boolean(projectId && user)`): absent and empty strings are falsy. -/
def truthy : Option String → Bool
  | none => false
  | some s => s != ""

/-- Public-mode dispatch of `fetchData`: the RPC selected by the data-type
tag, or the `Unsupported data type` error thrown by the `default` branch. -/
def publicCall (shareId : String) : DataType → Except String BackendCall
  | .updates => .ok (.rpc "get_public_project_updates" shareId)
  | .properties => .ok (.rpc "get_public_properties" shareId)
  | .roadmap => .ok (.rpc "get_public_project_roadmap" shareId)
  | .documents => .ok (.rpc "get_public_project_documents" shareId)
  | .requirements => .ok (.rpc "get_public_client_requirements" shareId)
  | .client_tour_availability => .ok (.rpc "get_public_client_tour_availability" shareId)
  | .unknown t => .error ("Unsupported data type: " ++ DataType.tag (.unknown t))

/-- Authenticated-mode dispatch of `fetchData`: the direct table query
selected by the data-type tag (`.order("category")` defaults to ascending),
or the `Unsupported data type` error thrown by the `default` branch. -/
def authCall (projectId : String) : DataType → Except String BackendCall
  | .updates => .ok (.table "project_updates" "project_id" projectId "update_date" false)
  | .properties => .ok (.table "properties" "project_id" projectId "order_key" true)
  | .roadmap => .ok (.table "project_roadmap" "project_id" projectId "order_key" true)
  | .documents => .ok (.table "project_documents" "project_id" projectId "order_key" true)
  | .requirements => .ok (.table "client_requirements" "project_id" projectId "category" true)
  | .client_tour_availability =>
      .ok (.table "client_tour_availability" "project_id" projectId "proposed_datetime" true)
  | .unknown t => .error ("Unsupported data type: " ++ DataType.tag (.unknown t))

/-- The data types the hook re-sorts client-side by order key. -/
def isOrderableType : DataType → Bool
  | .properties => true
  | .roadmap => true
  | .documents => true
  | _ => false

/-- The order-key comparison used for client-side sorting. -/
def orderKeyLE (a b : Row) : Prop := a.order_key ≤ b.order_key

instance : DecidableRel orderKeyLE := fun a b =>
  inferInstanceAs (Decidable (a.order_key ≤ b.order_key))

instance : IsTotal Row orderKeyLE := ⟨fun a b => le_total a.order_key b.order_key⟩

instance : IsTrans Row orderKeyLE := ⟨fun _ _ _ h1 h2 => le_trans h1 h2⟩

/-- Modelled from the spec: `sortByOrderKey` from `src/utils/orderKey.ts` is
imported by the hook but the file is not included under `src/`.  The spec says
the hook "re-sorts the result client-side by order key", ascending; this is
modelled as a sort of the rows by lexicographic comparison of `order_key`. -/
def sortByOrderKey (rows : List Row) : List Row :=
  List.insertionSort orderKeyLE rows

/-- The hook's returned state triple `{data, loading, error}`. -/
structure HookState where
  data : List Row
  loading : Bool
  error : Option String
deriving DecidableEq, Repr

/-- The `useState` initial values of the hook: `[]`, `true`, `null`. -/
def initialHookState : HookState := { data := [], loading := true, error := none }

/-- `fetchData` from useProjectData.ts as a pure transition on the hook state,
also returning the backend call issued (if any).  `backend` maps the issued
call to its result.  Faithful points: `isPublicMode = Boolean(shareId)`,
`isAuthenticatedMode = Boolean(projectId && user)`; when neither mode is
usable only `setLoading(false)` runs; otherwise `setError(null)` runs first,
public mode wins the dispatch, a thrown `Unsupported data type` error or a
returned `result.error` lands in the `catch` which sets only the error
message, and on success the rows (with order-key-bearing types re-sorted) are
stored via `setData` with `loading` cleared in the `finally`. -/
def fetchData (projectId : Option String) (userPresent : Bool) (shareId : Option String)
    (dataType : DataType) (backend : BackendCall → QueryResult)
    (st : HookState) : HookState × Option BackendCall :=
  let isPublicMode := truthy shareId
  let isAuthenticatedMode := truthy projectId && userPresent
  if !isPublicMode && !isAuthenticatedMode then
    ({ st with loading := false }, none)
  else
    let st1 : HookState := { st with error := none }
    let dispatched : Except String BackendCall :=
      if isPublicMode then publicCall (shareId.getD "") dataType
      else authCall (projectId.getD "") dataType
    match dispatched with
    | .error msg => ({ st1 with error := some msg, loading := false }, none)
    | .ok call =>
        match backend call with
        | .err msg => ({ st1 with error := some msg, loading := false }, some call)
        | .ok rows =>
            let rows1 := if isOrderableType dataType then sortByOrderKey rows else rows
            ({ st1 with data := rows1, loading := false }, some call)

/-! ## Witness fixtures -/

/-- Witness fixture: the primary clipboard write succeeds but persistence of
the share id fails. -/
def envPersistFail : ShareEnv :=
  { origin := "https://app.example", randomUUID := "uuid-1",
    clipboardAvailable := true, primaryCopyOk := true,
    execCommandResult := none, persistOk := false }

/-- Witness fixture: the clipboard API is available but both the primary write
and the `execCommand` fallback fail. -/
def envCopyFail : ShareEnv :=
  { origin := "https://app.example", randomUUID := "uuid-1",
    clipboardAvailable := true, primaryCopyOk := false,
    execCommandResult := some false, persistOk := true }

/-- Witness fixture: a project without a public share id. -/
def freshProject : Project := { id := "p1", public_share_id := none }

/-- Witness fixture: a project with an existing public share id. -/
def sharedProject : Project := { id := "p1", public_share_id := some "sid-9" }

/-- Witness fixture: rows with out-of-order keys, as in the spec's example. -/
def unsortedRows : List Row :=
  [ { order_key := "a2", payload := "r2" },
    { order_key := "a0", payload := "r0" },
    { order_key := "a1", payload := "r1" } ]

/-- Witness fixture: a backend returning `unsortedRows` for every call. -/
def unsortedBackend : BackendCall → QueryResult := fun _ => .ok unsortedRows

/-- Witness fixture: a backend failing every call. -/
def errBackend : BackendCall → QueryResult := fun _ => .err "boom"

/-- Witness fixture: a backend returning no rows for every call. -/
def emptyBackend : BackendCall → QueryResult := fun _ => .ok []

/-! ## Helper lemmas -/

theorem removeAt_length : ∀ (l : List α) (i : Nat), i < l.length →
    (removeAt l i).length = l.length - 1
  | [], _, h => by simp at h
  | _ :: _, 0, _ => by simp [removeAt]
  | a :: t, n + 1, h => by
      have ih := removeAt_length t n (by simpa using h)
      have ht : 0 < t.length := Nat.lt_of_le_of_lt (Nat.zero_le n) (by simpa using h)
      simp [removeAt, ih]
      omega

theorem insertAt_length : ∀ (l : List α) (i : Nat) (x : α),
    (insertAt l i x).length = l.length + 1
  | _, 0, _ => by simp [insertAt]
  | [], _ + 1, _ => by simp [insertAt]
  | a :: t, n + 1, x => by simp [insertAt, insertAt_length t n x]

theorem regenFrom_get? : ∀ (l : List ProjectCard) (n k : Nat),
    ((List.enumFrom n l).map
        (fun p => { p.2 with order_key := "a" ++ toString p.1 })).get? k
      = (l.get? k).map (fun c => { c with order_key := "a" ++ toString (n + k) })
  | [], n, k => by simp [List.enumFrom]
  | c :: t, n, 0 => by simp [List.enumFrom]
  | c :: t, n, k + 1 => by
      have harith : n + (k + 1) = (n + 1) + k := by omega
      simp only [List.enumFrom, List.map_cons, List.get?_cons_succ]
      rw [regenFrom_get? t (n + 1) k, harith]

theorem regenFrom_map_cardData : ∀ (l : List ProjectCard) (n : Nat),
    (((List.enumFrom n l).map
        (fun p => { p.2 with order_key := "a" ++ toString p.1 })).map cardData)
      = l.map cardData
  | [], _ => rfl
  | c :: t, n => by
      simp only [List.enumFrom, List.map_cons, regenFrom_map_cardData t (n + 1)]
      rfl

theorem regenerateKeys_get? (l : List ProjectCard) (k : Nat) :
    (regenerateKeys l).get? k
      = (l.get? k).map (fun c => { c with order_key := "a" ++ toString k }) := by
  have := regenFrom_get? l 0 k
  simpa [regenerateKeys, List.enum] using this

theorem regenerateKeys_map_cardData (l : List ProjectCard) :
    (regenerateKeys l).map cardData = l.map cardData := by
  simpa [regenerateKeys, List.enum] using regenFrom_map_cardData l 0

theorem regenerateKeys_length (l : List ProjectCard) :
    (regenerateKeys l).length = l.length := by
  simp [regenerateKeys]

/-! ## C1 — card reorder -/

/-- C1: for every card list and valid positions `i`, `j`, the reorder operation
yields (and stores as the local display state) the list obtained by removing
the element at index `i` and reinserting it at index `j`, with the element at
display position `k` carrying order key `a<k>` for every `k`, and with the
cards' non-key data exactly the moved list. -/
theorem handleCardReorder_spec (cards : List ProjectCard) (i j : Nat)
    (hi : i < cards.length) (hj : j < cards.length) :
    (handleCardReorder cards i j).length = cards.length ∧
    (∀ k, k < cards.length →
      ((handleCardReorder cards i j).get? k).map ProjectCard.order_key
        = some ("a" ++ toString k)) ∧
    (handleCardReorder cards i j).map cardData
      = (insertAt (removeAt cards i) j (cards.get ⟨i, hi⟩)).map cardData := by
  have hget : cards.get? i = some (cards.get ⟨i, hi⟩) := List.get?_eq_get hi
  have hlen : (insertAt (removeAt cards i) j (cards.get ⟨i, hi⟩)).length = cards.length := by
    rw [insertAt_length, removeAt_length cards i hi]
    omega
  have hred : handleCardReorder cards i j
      = regenerateKeys (insertAt (removeAt cards i) j (cards.get ⟨i, hi⟩)) := by
    unfold handleCardReorder
    rw [hget]
  refine ⟨?_, ?_, ?_⟩
  · rw [hred, regenerateKeys_length, hlen]
  · intro k hk
    rw [hred, regenerateKeys_get?]
    have hk' : k < (insertAt (removeAt cards i) j (cards.get ⟨i, hi⟩)).length := by
      rw [hlen]
      exact hk
    rw [List.get?_eq_get hk']
    rfl
  · rw [hred]
    exact regenerateKeys_map_cardData _

/-- C1 witness: moving the card at index 3 to index 1 in the default 5-card
order satisfies the reorder specification concretely. -/
theorem handleCardReorder_spec_witness :
    (handleCardReorder DEFAULT_CARD_ORDER 3 1).length = DEFAULT_CARD_ORDER.length ∧
    (∀ k, k < DEFAULT_CARD_ORDER.length →
      ((handleCardReorder DEFAULT_CARD_ORDER 3 1).get? k).map ProjectCard.order_key
        = some ("a" ++ toString k)) ∧
    (handleCardReorder DEFAULT_CARD_ORDER 3 1).map cardData
      = (insertAt (removeAt DEFAULT_CARD_ORDER 3) 1
          (DEFAULT_CARD_ORDER.get ⟨3, by decide⟩)).map cardData :=
  handleCardReorder_spec DEFAULT_CARD_ORDER 3 1 (by decide) (by decide)

/-! ## C2 — fresh share: copy before persist, persistence failure swallowed -/

/-- C2: on a share invocation with no existing share id and a successful copy,
the trace is exactly clipboard write of the freshly derived URL, then the
success flag, then a single persistence attempt (so the copy strictly precedes
the persist and there is no retry); only a successful persist updates the
local project, a failed persist surfaces no alert and leaves the copied URL's
event unchanged. -/
theorem handleShareProject_fresh_spec (env : ShareEnv) (project : Project)
    (hFresh : project.public_share_id = none)
    (hCopy : copyToClipboard env = true) :
    handleShareProject env project true =
      ([.clipboardWrite (env.origin ++ "/share/" ++ env.randomUUID),
        .setCopySuccessTrue,
        .persistShareId project.id env.randomUUID] ++
        (if env.persistOk then [ShareEvent.setProjectShareId env.randomUUID] else []),
       if env.persistOk then { project with public_share_id := some env.randomUUID }
       else project) ∧
    ShareEvent.alertCopyFailed ∉ (handleShareProject env project true).1 ∧
    (handleShareProject env project true).1.countP isPersistEvent = 1 := by
  have htr : handleShareProject env project true =
      ([.clipboardWrite (env.origin ++ "/share/" ++ env.randomUUID),
        .setCopySuccessTrue,
        .persistShareId project.id env.randomUUID] ++
        (if env.persistOk then [ShareEvent.setProjectShareId env.randomUUID] else []),
       if env.persistOk then { project with public_share_id := some env.randomUUID }
       else project) := by
    unfold handleShareProject
    rw [hFresh]
    simp only [hCopy, Bool.not_true, Bool.false_eq_true, if_false]
    cases env.persistOk <;> simp
  refine ⟨htr, ?_, ?_⟩
  · rw [htr]
    cases env.persistOk <;> simp
  · rw [htr]
    cases env.persistOk <;> simp [isPersistEvent]

/-- C2 witness: concrete fresh share with failing persistence. -/
theorem handleShareProject_fresh_spec_witness :
    handleShareProject envPersistFail freshProject true =
      ([.clipboardWrite (envPersistFail.origin ++ "/share/" ++ envPersistFail.randomUUID),
        .setCopySuccessTrue,
        .persistShareId freshProject.id envPersistFail.randomUUID] ++
        (if envPersistFail.persistOk then
          [ShareEvent.setProjectShareId envPersistFail.randomUUID] else []),
       if envPersistFail.persistOk then
         { freshProject with public_share_id := some envPersistFail.randomUUID }
       else freshProject) ∧
    ShareEvent.alertCopyFailed ∉ (handleShareProject envPersistFail freshProject true).1 ∧
    (handleShareProject envPersistFail freshProject true).1.countP isPersistEvent = 1 :=
  handleShareProject_fresh_spec envPersistFail freshProject rfl rfl

/-! ## C6 — clipboard fallback and abort -/

/-- C6: when the primary clipboard API is available but fails, the fallback
copy is attempted; when the fallback also fails on a fresh share attempt, the
user gets the blocking failure alert, the flow aborts, and no share id is
persisted (the project record write never happens and the project is
unchanged). -/
theorem copyFallback_abort_spec (env : ShareEnv) (project : Project)
    (hAvail : env.clipboardAvailable = true)
    (hPrimary : env.primaryCopyOk = false)
    (hFail : copyToClipboard env = false)
    (hFresh : project.public_share_id = none) :
    CopyStep.fallbackAttempt ∈ (copyToClipboardTrace env).1 ∧
    handleShareProject env project true = ([ShareEvent.alertCopyFailed], project) ∧
    (handleShareProject env project true).1.countP isPersistEvent = 0 := by
  have hmem : CopyStep.fallbackAttempt ∈ (copyToClipboardTrace env).1 := by
    unfold copyToClipboardTrace
    rw [hAvail, hPrimary]
    cases env.execCommandResult <;> simp
  have htr : handleShareProject env project true = ([ShareEvent.alertCopyFailed], project) := by
    unfold handleShareProject
    rw [hFresh]
    simp [hFail]
  exact ⟨hmem, htr, by rw [htr]; simp [isPersistEvent]⟩

/-- C6 witness: concrete environment where both copy mechanisms fail on a
fresh share attempt. -/
theorem copyFallback_abort_spec_witness :
    CopyStep.fallbackAttempt ∈ (copyToClipboardTrace envCopyFail).1 ∧
    handleShareProject envCopyFail freshProject true
      = ([ShareEvent.alertCopyFailed], freshProject) ∧
    (handleShareProject envCopyFail freshProject true).1.countP isPersistEvent = 0 :=
  copyFallback_abort_spec envCopyFail freshProject rfl rfl rfl rfl

/-! ## C7 — existing share id: reuse, no write -/

/-- C7: on a share invocation for a project that already has a public share
id, the project record is never written (no persist event, project state
unchanged), and when copying succeeds the copied text is exactly the canonical
URL `origin ++ "/share/" ++ shareId` built from the existing id. -/
theorem handleShareProject_existing_spec (env : ShareEnv) (project : Project) (sid : String)
    (hSid : project.public_share_id = some sid) :
    (handleShareProject env project true).2 = project ∧
    (handleShareProject env project true).1.countP isPersistEvent = 0 ∧
    (copyToClipboard env = true →
      handleShareProject env project true =
        ([.clipboardWrite (env.origin ++ "/share/" ++ sid), .setCopySuccessTrue], project)) := by
  unfold handleShareProject
  rw [hSid]
  cases hc : copyToClipboard env <;> simp [isPersistEvent]

/-- C7 witness: concrete share invocation on a project with an existing share
id. -/
theorem handleShareProject_existing_spec_witness :
    (handleShareProject envPersistFail sharedProject true).2 = sharedProject ∧
    (handleShareProject envPersistFail sharedProject true).1.countP isPersistEvent = 0 ∧
    (copyToClipboard envPersistFail = true →
      handleShareProject envPersistFail sharedProject true =
        ([.clipboardWrite (envPersistFail.origin ++ "/share/" ++ "sid-9"),
          .setCopySuccessTrue], sharedProject)) :=
  handleShareProject_existing_spec envPersistFail sharedProject "sid-9" rfl

/-! ## Helper lemmas about fetchData -/

theorem fetchData_snd (projectId : Option String) (userPresent : Bool)
    (shareId : Option String) (dt : DataType) (backend : BackendCall → QueryResult)
    (st : HookState) (call : BackendCall)
    (hguard : (truthy shareId || (truthy projectId && userPresent)) = true)
    (hdisp : (if truthy shareId then publicCall (shareId.getD "") dt
              else authCall (projectId.getD "") dt) = Except.ok call) :
    (fetchData projectId userPresent shareId dt backend st).2 = some call := by
  unfold fetchData
  cases hps : truthy shareId <;> rw [hps] at hdisp <;> simp_all <;>
    cases backend call <;> simp

theorem fetchData_snd_none_of_error (projectId : Option String) (userPresent : Bool)
    (shareId : Option String) (dt : DataType) (backend : BackendCall → QueryResult)
    (st : HookState) (msg : String)
    (hdisp : (if truthy shareId then publicCall (shareId.getD "") dt
              else authCall (projectId.getD "") dt) = Except.error msg) :
    (fetchData projectId userPresent shareId dt backend st).2 = none := by
  unfold fetchData
  cases hps : truthy shareId <;> rw [hps] at hdisp <;>
    cases hpa : truthy projectId && userPresent <;> simp_all

/-! ## C4 — no usable identifier: empty no-op resolution -/

/-- C4: when neither the share identifier nor the authenticated project
identifier is usable, the hook resolves from its initial state to
`{data = [], loading = false, error = none}` and issues no backend call. -/
theorem useProjectData_no_identifier (projectId shareId : Option String)
    (userPresent : Bool) (dt : DataType) (backend : BackendCall → QueryResult)
    (hs : truthy shareId = false)
    (hp : (truthy projectId && userPresent) = false) :
    fetchData projectId userPresent shareId dt backend initialHookState =
      ({ data := [], loading := false, error := none }, none) := by
  unfold fetchData
  rw [hs, hp]
  rfl

/-- C4 witness: concrete invocation with no project id and no share id. -/
theorem useProjectData_no_identifier_witness :
    fetchData none false none .updates emptyBackend initialHookState =
      ({ data := [], loading := false, error := none }, none) :=
  useProjectData_no_identifier none none false .updates emptyBackend rfl rfl

/-! ## C5 — unsupported data type -/

/-- C5: with a usable identifier and a data-type tag outside the recognized
set, the hook resolves with the `Unsupported data type` error message, empty
data (from the initial state) and `loading = false`, issuing no backend
call. -/
theorem useProjectData_unsupported_type (projectId shareId : Option String)
    (userPresent : Bool) (tag : String) (backend : BackendCall → QueryResult)
    (hmode : (truthy shareId || (truthy projectId && userPresent)) = true) :
    fetchData projectId userPresent shareId (.unknown tag) backend initialHookState =
      ({ data := [], loading := false,
         error := some ("Unsupported data type: " ++ tag) }, none) := by
  unfold fetchData
  cases hps : truthy shareId <;>
    cases hpa : truthy projectId && userPresent <;>
    simp_all [publicCall, authCall, DataType.tag, initialHookState]

/-- C5 witness: concrete public-mode invocation with an unrecognized tag. -/
theorem useProjectData_unsupported_type_witness :
    fetchData none false (some "s") (.unknown "bogus") emptyBackend initialHookState =
      ({ data := [], loading := false,
         error := some ("Unsupported data type: " ++ "bogus") }, none) :=
  useProjectData_unsupported_type none (some "s") false "bogus" emptyBackend (by decide)

/-! ## C3 — client-side re-sort of order-key-bearing types -/

/-- C3: for any successful fetch of the `properties`, `roadmap` or `documents`
data type, in either mode, the hook's stored data is the backend result
re-sorted ascending by order key: it equals `sortByOrderKey` of the rows,
which is sorted under the order-key comparison and a permutation of the
backend's rows. -/
theorem useProjectData_sorts_orderable (projectId shareId : Option String)
    (userPresent : Bool) (dt : DataType) (rows : List Row) (st : HookState)
    (backend : BackendCall → QueryResult)
    (hmode : (truthy shareId || (truthy projectId && userPresent)) = true)
    (hdt : dt = .properties ∨ dt = .roadmap ∨ dt = .documents)
    (hb : ∀ c, backend c = QueryResult.ok rows) :
    (fetchData projectId userPresent shareId dt backend st).1.data = sortByOrderKey rows ∧
    List.Sorted orderKeyLE (sortByOrderKey rows) ∧
    List.Perm (sortByOrderKey rows) rows := by
  refine ⟨?_, List.sorted_insertionSort orderKeyLE rows, List.perm_insertionSort orderKeyLE rows⟩
  unfold fetchData
  rcases hdt with rfl | rfl | rfl <;>
    cases hps : truthy shareId <;>
    cases hpa : truthy projectId && userPresent <;>
    simp_all [publicCall, authCall, isOrderableType, sortByOrderKey]

/-- C3 witness: the spec's example — keys `["a2","a0","a1"]` come back sorted
ascending. -/
theorem useProjectData_sorts_orderable_witness :
    (fetchData none false (some "s") .properties unsortedBackend initialHookState).1.data
      = sortByOrderKey unsortedRows ∧
    List.Sorted orderKeyLE (sortByOrderKey unsortedRows) ∧
    List.Perm (sortByOrderKey unsortedRows) unsortedRows :=
  useProjectData_sorts_orderable none (some "s") false .properties unsortedRows
    initialHookState unsortedBackend (by decide) (Or.inl rfl) (fun _ => rfl)

/-! ## C8 — authenticated-mode query shapes -/

/-- C8: every authenticated-mode fetch issues the fixed direct table query for
its data-type tag, filtered by the project identifier on `project_id`, with
the fixed per-type sort: updates by `update_date` descending,
properties/roadmap/documents by `order_key` ascending, requirements by
`category`, and tour availability by `proposed_datetime` ascending. -/
theorem useProjectData_authenticated_queries (pid : String) (shareId : Option String)
    (backend : BackendCall → QueryResult) (st : HookState)
    (hs : truthy shareId = false) (hpid : pid ≠ "") :
    (fetchData (some pid) true shareId .updates backend st).2 =
        some (.table "project_updates" "project_id" pid "update_date" false) ∧
    (fetchData (some pid) true shareId .properties backend st).2 =
        some (.table "properties" "project_id" pid "order_key" true) ∧
    (fetchData (some pid) true shareId .roadmap backend st).2 =
        some (.table "project_roadmap" "project_id" pid "order_key" true) ∧
    (fetchData (some pid) true shareId .documents backend st).2 =
        some (.table "project_documents" "project_id" pid "order_key" true) ∧
    (fetchData (some pid) true shareId .requirements backend st).2 =
        some (.table "client_requirements" "project_id" pid "category" true) ∧
    (fetchData (some pid) true shareId .client_tour_availability backend st).2 =
        some (.table "client_tour_availability" "project_id" pid "proposed_datetime" true) := by
  have hguard : (truthy shareId || (truthy (some pid) && true)) = true := by
    simp [truthy, hpid]
  refine ⟨?_, ?_, ?_, ?_, ?_, ?_⟩ <;>
    exact fetchData_snd _ _ _ _ _ _ _ hguard (by simp [hs, authCall])

/-- C8 witness: concrete authenticated-mode invocations for all six types. -/
theorem useProjectData_authenticated_queries_witness :
    (fetchData (some "p1") true none .updates emptyBackend initialHookState).2 =
        some (.table "project_updates" "project_id" "p1" "update_date" false) ∧
    (fetchData (some "p1") true none .properties emptyBackend initialHookState).2 =
        some (.table "properties" "project_id" "p1" "order_key" true) ∧
    (fetchData (some "p1") true none .roadmap emptyBackend initialHookState).2 =
        some (.table "project_roadmap" "project_id" "p1" "order_key" true) ∧
    (fetchData (some "p1") true none .documents emptyBackend initialHookState).2 =
        some (.table "project_documents" "project_id" "p1" "order_key" true) ∧
    (fetchData (some "p1") true none .requirements emptyBackend initialHookState).2 =
        some (.table "client_requirements" "project_id" "p1" "category" true) ∧
    (fetchData (some "p1") true none .client_tour_availability emptyBackend initialHookState).2 =
        some (.table "client_tour_availability" "project_id" "p1" "proposed_datetime" true) :=
  useProjectData_authenticated_queries "p1" none emptyBackend initialHookState rfl (by decide)

/-! ## C9 — public mode takes precedence when both identifiers are usable -/

/-- C9: when both a share identifier and a usable authenticated project
identifier are supplied, the hook issues the public-mode RPC for its data-type
tag, carrying the share identifier, and any call it ever issues in this
configuration is an RPC — never the authenticated direct-table query. -/
theorem useProjectData_public_precedence (pid sid : String)
    (backend : BackendCall → QueryResult) (st : HookState)
    (hpid : pid ≠ "") (hsid : sid ≠ "") :
    (fetchData (some pid) true (some sid) .updates backend st).2 =
        some (.rpc "get_public_project_updates" sid) ∧
    (fetchData (some pid) true (some sid) .properties backend st).2 =
        some (.rpc "get_public_properties" sid) ∧
    (fetchData (some pid) true (some sid) .roadmap backend st).2 =
        some (.rpc "get_public_project_roadmap" sid) ∧
    (fetchData (some pid) true (some sid) .documents backend st).2 =
        some (.rpc "get_public_project_documents" sid) ∧
    (fetchData (some pid) true (some sid) .requirements backend st).2 =
        some (.rpc "get_public_client_requirements" sid) ∧
    (fetchData (some pid) true (some sid) .client_tour_availability backend st).2 =
        some (.rpc "get_public_client_tour_availability" sid) ∧
    (∀ dt c, (fetchData (some pid) true (some sid) dt backend st).2 = some c →
        c.isRpc = true) := by
  have hts : truthy (some sid) = true := by simp [truthy, hsid]
  have hguard : (truthy (some sid) || (truthy (some pid) && true)) = true := by
    simp [hts]
  have h1 : (fetchData (some pid) true (some sid) .updates backend st).2 =
      some (.rpc "get_public_project_updates" sid) :=
    fetchData_snd _ _ _ _ _ _ _ hguard (by simp [hts, publicCall])
  have h2 : (fetchData (some pid) true (some sid) .properties backend st).2 =
      some (.rpc "get_public_properties" sid) :=
    fetchData_snd _ _ _ _ _ _ _ hguard (by simp [hts, publicCall])
  have h3 : (fetchData (some pid) true (some sid) .roadmap backend st).2 =
      some (.rpc "get_public_project_roadmap" sid) :=
    fetchData_snd _ _ _ _ _ _ _ hguard (by simp [hts, publicCall])
  have h4 : (fetchData (some pid) true (some sid) .documents backend st).2 =
      some (.rpc "get_public_project_documents" sid) :=
    fetchData_snd _ _ _ _ _ _ _ hguard (by simp [hts, publicCall])
  have h5 : (fetchData (some pid) true (some sid) .requirements backend st).2 =
      some (.rpc "get_public_client_requirements" sid) :=
    fetchData_snd _ _ _ _ _ _ _ hguard (by simp [hts, publicCall])
  have h6 : (fetchData (some pid) true (some sid) .client_tour_availability backend st).2 =
      some (.rpc "get_public_client_tour_availability" sid) :=
    fetchData_snd _ _ _ _ _ _ _ hguard (by simp [hts, publicCall])
  refine ⟨h1, h2, h3, h4, h5, h6, ?_⟩
  intro dt c hc
  cases dt
  case updates => rw [h1] at hc; cases hc; rfl
  case properties => rw [h2] at hc; cases hc; rfl
  case roadmap => rw [h3] at hc; cases hc; rfl
  case documents => rw [h4] at hc; cases hc; rfl
  case requirements => rw [h5] at hc; cases hc; rfl
  case client_tour_availability => rw [h6] at hc; cases hc; rfl
  case unknown tag =>
    rw [fetchData_snd_none_of_error _ _ _ _ _ _
      ("Unsupported data type: " ++ tag) (by simp [hts, publicCall, DataType.tag])] at hc
    exact absurd hc (by simp)

/-- C9 witness: concrete invocation supplying both identifiers issues the RPC
for each data type. -/
theorem useProjectData_public_precedence_witness :
    (fetchData (some "p1") true (some "s1") .updates emptyBackend initialHookState).2 =
        some (.rpc "get_public_project_updates" "s1") ∧
    (fetchData (some "p1") true (some "s1") .properties emptyBackend initialHookState).2 =
        some (.rpc "get_public_properties" "s1") ∧
    (fetchData (some "p1") true (some "s1") .roadmap emptyBackend initialHookState).2 =
        some (.rpc "get_public_project_roadmap" "s1") ∧
    (fetchData (some "p1") true (some "s1") .documents emptyBackend initialHookState).2 =
        some (.rpc "get_public_project_documents" "s1") ∧
    (fetchData (some "p1") true (some "s1") .requirements emptyBackend initialHookState).2 =
        some (.rpc "get_public_client_requirements" "s1") ∧
    (fetchData (some "p1") true (some "s1") .client_tour_availability emptyBackend
        initialHookState).2 =
        some (.rpc "get_public_client_tour_availability" "s1") ∧
    (∀ dt c, (fetchData (some "p1") true (some "s1") dt emptyBackend initialHookState).2
        = some c → c.isRpc = true) :=
  useProjectData_public_precedence "p1" "s1" emptyBackend initialHookState
    (by decide) (by decide)

/-! ## C10 — failed fetches leave previously fetched data intact -/

/-- C10: whenever a fetch attempt ends with a non-null error (backend error or
unsupported data type), the hook's data is exactly what it was before the
attempt and loading is cleared — a failed refetch never clears or corrupts
previously fetched data. -/
theorem useProjectData_error_preserves_data (projectId shareId : Option String)
    (userPresent : Bool) (dt : DataType) (backend : BackendCall → QueryResult)
    (st : HookState)
    (herr : (fetchData projectId userPresent shareId dt backend st).1.error.isSome = true) :
    (fetchData projectId userPresent shareId dt backend st).1.data = st.data ∧
    (fetchData projectId userPresent shareId dt backend st).1.loading = false := by
  unfold fetchData at herr ⊢
  cases hps : truthy shareId <;>
    cases hpa : truthy projectId && userPresent <;>
    simp_all <;>
    cases dt <;>
    simp_all [publicCall, authCall] <;>
    split at herr <;> simp_all

/-- C10 witness: an unsupported-type fetch from the initial state keeps the
initial (empty) data. -/
theorem useProjectData_error_preserves_data_witness :
    (fetchData none false (some "s") (.unknown "bogus") emptyBackend
        initialHookState).1.data = initialHookState.data ∧
    (fetchData none false (some "s") (.unknown "bogus") emptyBackend
        initialHookState).1.loading = false :=
  useProjectData_error_preserves_data none (some "s") false (.unknown "bogus")
    emptyBackend initialHookState (by decide)

end BoltHackathon
